import Mathlib

/-!
Verification of the askpass hijack and credential-relay subsystem of jjui,
embedded from src/cmd/jjui/main.go.  The prompt-normalization function
`adjustPrompt`, the prompt handler returned by `showPassword`, and the
control flow of `run()` are translated directly from the source; the
internals of the `internal/askpass` package (the Prompt Stub Client) are
not part of the given sources and are modelled from the spec where a claim
needs them, each such definition marked in its doc comment.
-/

namespace JJUI

/-- Byte strings (`[]byte` in Go) as lists of byte values. -/
abbrev Bytes := List Nat

/-- Go `unicode.IsSpace`: the Latin-1 fast path of the Go source plus the
White_Space property ranges above Latin-1 (`unicode/graphic.go`). -/
def goIsSpace (c : Char) : Bool :=
  let n := c.toNat
  if n ≤ 0xFF then
    n == 9 || n == 10 || n == 11 || n == 12 || n == 13 || n == 32 ||
      n == 0x85 || n == 0xA0
  else
    n == 0x1680 || (decide (0x2000 ≤ n) && decide (n ≤ 0x200A)) ||
      n == 0x2028 || n == 0x2029 || n == 0x202F || n == 0x205F || n == 0x3000

/-- The fallback label used by `adjustPrompt` (main.go line 245). -/
def fallbackPrompt : String := "ssh-askpass: "

/-- The range loop body of `adjustPrompt` (main.go lines 240-244): walk the
runes of `s`; on the first non-space rune return `s`; if the loop finishes,
return the fallback label. -/
def adjustPromptAux (s : String) : List Char → String
  | [] => fallbackPrompt
  | c :: rest => if goIsSpace c then adjustPromptAux s rest else s

/-- `adjustPrompt` from `showPassword` (main.go lines 238-246): ensure that
the prompt is not only made of spaces. -/
def adjustPrompt (s : String) : String :=
  adjustPromptAux s s.data

/-- A buffered Go channel of byte slices: a capacity and the values
currently buffered. -/
structure Chan where
  capacity : Nat
  buffer : List Bytes
deriving Repr, DecidableEq

/-- Outcome of a channel send: either the value is buffered and the sender
continues immediately, or the send would block. -/
inductive SendOutcome where
  | delivered (c : Chan)
  | wouldBlock
deriving Repr, DecidableEq

/-- Go channel send semantics for a buffered channel: succeeds without
blocking exactly when the buffer has room. -/
def Chan.send (c : Chan) (v : Bytes) : SendOutcome :=
  if c.buffer.length < c.capacity then
    .delivered { c with buffer := c.buffer ++ [v] }
  else
    .wouldBlock

/-- `make(chan []byte, 1)` (main.go line 248): an empty channel of
capacity 1. -/
def mkPasswordChan : Chan := { capacity := 1, buffer := [] }

/-- `common.TogglePasswordMsg`: the one message shape the relay subsystem
injects into the UI stream.  `Password := none` models a nil channel, as in
the zero-value message sent on cancellation (main.go line 256). -/
structure TogglePasswordMsg where
  Prompt : String
  Password : Option Chan
deriving Repr, DecidableEq

/-- Which of the two `select` signals fires first for one invocation of the
prompt handler (main.go lines 254-260): the `done` channel closing, or the
user completing entry with bytes `pw` delivered on the password channel. -/
inductive PromptOutcome where
  | cancelled
  | completed (pw : Bytes)
deriving Repr, DecidableEq

/-- Observable record of one invocation of the handler returned by
`showPassword`: the messages sent via `send`, the returned byte slice
(`none` models a nil return), which `select` branch ran, and the state of
the per-request password channel when the handler returns. -/
structure HandlerRun where
  msgs : List TogglePasswordMsg
  result : Option Bytes
  cancelBranch : Bool
  completeBranch : Bool
  passwordChan : Chan
deriving Repr, DecidableEq

/-- The handler returned by `showPassword` (main.go lines 247-261): make a
fresh capacity-1 channel, send the show-prompt message with the adjusted
prompt, then `select` on cancellation versus completion.  On cancellation
it sends the zero-value message and returns nil; on completion it returns
the received bytes and sends nothing further. -/
def showPasswordHandler (name prompt : String) (o : PromptOutcome) : HandlerRun :=
  let _ := name
  let password := mkPasswordChan
  let showMsg : TogglePasswordMsg :=
    { Prompt := adjustPrompt prompt, Password := some password }
  match o with
  | .cancelled =>
      { msgs := [showMsg, { Prompt := "", Password := none }]
        result := none
        cancelBranch := true
        completeBranch := false
        passwordChan := password }
  | .completed pw =>
      { msgs := [showMsg]
        result := some pw
        cancelBranch := false
        completeBranch := true
        passwordChan := password }

/-- Outcome of `config.LoadConfigFile()` (main.go lines 142-153): file read
successfully, file does not exist (`fs.ErrNotExist`, tolerated), or any
other read error (fatal). -/
inductive LoadFileResult where
  | ok (content : String)
  | errNotExist
  | errOther
deriving Repr, DecidableEq

/-- The environment of one invocation of `run()` (main.go lines 87-235):
the parsed flag values and the already-resolved results of each external
call the control flow branches on. -/
structure Env where
  stubMode : Bool
  helpFlag : Bool
  versionFlag : Bool
  editConfigFlag : Bool
  editConfigExit : Nat
  args : List String
  getwdResult : Option String
  jjRootResult : Except String String
  loadConfigFile : LoadFileResult
  configLoadOk : Bool
  initVMOk : Bool
  loadLuaConfig : Except String String
  runSetupOk : Bool
  embeddedThemeOk : Bool
  userThemeName : String
  userThemeOk : Bool
  hijackAskpass : Bool
  startListeningOk : Bool
  programRunOk : Bool

/-- Trace of one invocation of `run()`: which subsystems were touched and
the returned exit code. -/
structure RunTrace where
  serverCreated : Bool
  flagsParsed : Bool
  configLoaded : Bool
  vmInitialized : Bool
  themeLoaded : Bool
  uiProgramCreated : Bool
  startListeningCalled : Bool
  serveStarted : Bool
  promptHandlerInstalled : Bool
  uiRan : Bool
  exitCode : Nat
deriving Repr, DecidableEq

/-- The all-false trace at the top of `run()`. -/
def RunTrace.init : RunTrace :=
  { serverCreated := false
    flagsParsed := false
    configLoaded := false
    vmInitialized := false
    themeLoaded := false
    uiProgramCreated := false
    startListeningCalled := false
    serveStarted := false
    promptHandlerInstalled := false
    uiRan := false
    exitCode := 0 }

/-- `p.Run()` and the final return (main.go lines 230-234). -/
def runProgram (e : Env) (t : RunTrace) : RunTrace :=
  let t := { t with uiRan := true }
  if e.programRunOk then { t with exitCode := 0 } else { t with exitCode := 1 }

/-- The `config.Current.Ssh.HijackAskpass` block (main.go lines 218-229):
when enabled, call `StartListening` (error: print and return 1), then start
`Serve` with the `showPassword` handler on its own goroutine; in either
case fall through to `p.Run()`. -/
def runAskpassBlock (e : Env) (t : RunTrace) : RunTrace :=
  if e.hijackAskpass then
    let t := { t with startListeningCalled := true }
    if e.startListeningOk then
      runProgram e { t with serveStarted := true, promptHandlerInstalled := true }
    else
      { t with exitCode := 1 }
  else
    runProgram e t

/-- Theme loading (main.go lines 171-203): embedded default theme (error
fatal), then the user theme when configured (error fatal); the palette
updates and revset selection that follow do not branch.  `tea.NewProgram`
(main.go line 217) precedes the askpass block. -/
def runThemes (e : Env) (t : RunTrace) : RunTrace :=
  if e.embeddedThemeOk then
    if e.userThemeName ≠ "" && !e.userThemeOk then
      { t with exitCode := 1 }
    else
      runAskpassBlock e { t with themeLoaded := true, uiProgramCreated := true }
  else
    { t with exitCode := 1 }

/-- `config.LoadLuaConfigFile` and `scripting.RunSetup` (main.go lines
161-169): a read error is fatal; a non-empty source whose setup fails is
fatal. -/
def runLua (e : Env) (t : RunTrace) : RunTrace :=
  match e.loadLuaConfig with
  | .error _ => { t with exitCode := 1 }
  | .ok src =>
      if src ≠ "" && !e.runSetupOk then { t with exitCode := 1 }
      else runThemes e t

/-- `scripting.InitVM` (main.go lines 155-159): an error is fatal. -/
def runVM (e : Env) (t : RunTrace) : RunTrace :=
  if e.initVMOk then runLua e { t with vmInitialized := true }
  else { t with exitCode := 1 }

/-- `config.LoadConfigFile` handling (main.go lines 142-153): on success
`config.Current.Load` (error fatal); a missing file is tolerated; any other
read error is fatal. -/
def runConfig (e : Env) (t : RunTrace) : RunTrace :=
  match e.loadConfigFile with
  | .ok _ =>
      if e.configLoadOk then runVM e { t with configLoaded := true }
      else { t with exitCode := 1 }
  | .errNotExist => runVM e t
  | .errOther => { t with exitCode := 1 }

/-- The location argument (main.go lines 105-117): the first positional
argument, else the current working directory. -/
def locationOf (e : Env) : Option String :=
  match e.args with
  | a :: _ => some a
  | [] => e.getwdResult

/-- `run()` (main.go lines 87-235).  Creates the unstarted askpass server,
checks `IsSubprocess` and returns 0 in stub mode, otherwise parses flags,
handles `help`/`version`/`config`, resolves the location and the jj root,
and proceeds through configuration, scripting, themes and the UI program.
The `DEBUG` log-file setup and `config.Current.Limit` assignment do not
branch the modelled control flow. -/
def run (e : Env) : RunTrace :=
  let t := { RunTrace.init with serverCreated := true }
  if e.stubMode then
    { t with exitCode := 0 }
  else
    let t := { t with flagsParsed := true }
    if e.helpFlag then { t with exitCode := 0 }
    else if e.versionFlag then { t with exitCode := 0 }
    else if e.editConfigFlag then { t with exitCode := e.editConfigExit }
    else
      match locationOf e with
      | none => { t with exitCode := 1 }
      | some _ =>
          match e.jjRootResult with
          | .error _ => { t with exitCode := 1 }
          | .ok _ => runConfig e t

/-- What the human does with the prompt relayed by the stub: provide a
secret, or decline/cancel. -/
inductive StubOutcome where
  | secretProvided (secret : Bytes)
  | declined
deriving Repr, DecidableEq

/-- Modelled from the spec: the Prompt Stub Client (package
`internal/askpass`, not among the given sources).  Per the spec, on
decline/cancellation the stub "writes nothing, exits with a distinct
non-zero status"; when a secret is provided it writes the secret to
standard output, `IsSubprocess` reports stub mode, and `run()` returns 0
(main.go lines 89-91).  Result: (exit status, stdout bytes). -/
def stubProcess (e : Env) (o : StubOutcome) : Nat × Bytes :=
  match o with
  | .declined => (1, [])
  | .secretProvided s => ((run e).exitCode, s)

/-- Modelled from the spec: the relay leg from the UI Bridge back to the
stub.  The Relay Server writes the handler result back on the connection
and the Prompt Stub Client writes exactly those bytes to standard output;
a nil result produces empty output. -/
def stubStdout (handlerResult : Option Bytes) : Bytes :=
  match handlerResult with
  | some bs => bs
  | none => []

/-- A concrete environment that reaches the UI: no stub mode, no special
flags, a positional argument, a resolvable jj root, no config file, empty
Lua config, themes fine, askpass disabled. -/
def baseEnv : Env :=
  { stubMode := false
    helpFlag := false
    versionFlag := false
    editConfigFlag := false
    editConfigExit := 0
    args := ["repo"]
    getwdResult := some "/home/user"
    jjRootResult := .ok "/home/user/repo"
    loadConfigFile := .errNotExist
    configLoadOk := true
    initVMOk := true
    loadLuaConfig := .ok ""
    runSetupOk := true
    embeddedThemeOk := true
    userThemeName := ""
    userThemeOk := true
    hijackAskpass := false
    startListeningOk := true
    programRunOk := true }

/-- The base environment in stub mode. -/
def stubEnv : Env := { baseEnv with stubMode := true }

/-- The base environment with the askpass hijack enabled and the local bind
failing. -/
def bindFailEnv : Env :=
  { baseEnv with hijackAskpass := true, startListeningOk := false }

/-- If every rune of the list is whitespace, the `adjustPrompt` loop falls
through to the fallback label. -/
theorem adjustPromptAux_all_space (s : String) :
    ∀ l : List Char, (∀ c ∈ l, goIsSpace c = true) →
      adjustPromptAux s l = fallbackPrompt
  | [], _ => rfl
  | c :: rest, h => by
      have hc : goIsSpace c = true := h c (List.mem_cons_self c rest)
      have hrest : ∀ x ∈ rest, goIsSpace x = true :=
        fun x hx => h x (List.mem_cons_of_mem c hx)
      simp [adjustPromptAux, hc, adjustPromptAux_all_space s rest hrest]

/-- If some rune of the list is not whitespace, the `adjustPrompt` loop
returns the original string. -/
theorem adjustPromptAux_has_nonspace (s : String) :
    ∀ l : List Char, (∃ c ∈ l, goIsSpace c = false) → adjustPromptAux s l = s
  | [], h => absurd h (by simp)
  | c :: rest, h => by
      by_cases hc : goIsSpace c = true
      · have hrest : ∃ x ∈ rest, goIsSpace x = false := by
          rcases h with ⟨x, hx, hxf⟩
          rcases List.mem_cons.mp hx with rfl | hx2
          · rw [hxf] at hc; exact absurd hc (by simp)
          · exact ⟨x, hx2, hxf⟩
        simp [adjustPromptAux, hc, adjustPromptAux_has_nonspace s rest hrest]
      · simp [adjustPromptAux, hc]

/-- Claim C3: for every prompt whose characters are all Unicode whitespace
(including the empty string), the handler returned by `showPassword` sends
a show-prompt message whose Prompt field is the fallback label; a prompt
containing at least one non-whitespace character is shown as given. -/
theorem whitespace_prompt_fallback (name prompt : String) (o : PromptOutcome) :
    ((∀ c ∈ prompt.data, goIsSpace c = true) →
      (showPasswordHandler name prompt o).msgs.head?.map TogglePasswordMsg.Prompt
        = some fallbackPrompt)
    ∧ ((∃ c ∈ prompt.data, goIsSpace c = false) →
      (showPasswordHandler name prompt o).msgs.head?.map TogglePasswordMsg.Prompt
        = some prompt) := by
  constructor
  · intro h
    cases o <;>
      simp [showPasswordHandler, adjustPrompt,
        adjustPromptAux_all_space prompt prompt.data h]
  · intro h
    cases o <;>
      simp [showPasswordHandler, adjustPrompt,
        adjustPromptAux_has_nonspace prompt prompt.data h]

/-- Witness for C3 at concrete inputs: a whitespace-only prompt shows the
fallback label; a real prompt is shown as given. -/
theorem whitespace_prompt_fallback_witness :
    ((showPasswordHandler "git" " \t" PromptOutcome.cancelled).msgs.head?.map
        TogglePasswordMsg.Prompt = some fallbackPrompt)
    ∧ ((showPasswordHandler "git" "Enter PIN: " PromptOutcome.cancelled).msgs.head?.map
        TogglePasswordMsg.Prompt = some "Enter PIN: ") :=
  ⟨(whitespace_prompt_fallback "git" " \t" PromptOutcome.cancelled).1 (by decide),
   (whitespace_prompt_fallback "git" "Enter PIN: " PromptOutcome.cancelled).2 (by decide)⟩

/-- Claim C10: `adjustPrompt` is the identity on every string containing at
least one non-whitespace rune. -/
theorem adjustPrompt_identity_nonspace (s : String)
    (h : ∃ c ∈ s.data, goIsSpace c = false) : adjustPrompt s = s :=
  adjustPromptAux_has_nonspace s s.data h

/-- Witness for C10 at a concrete input with surrounding whitespace. -/
theorem adjustPrompt_identity_nonspace_witness :
    (∃ c ∈ ("  x ").data, goIsSpace c = false) ∧ adjustPrompt "  x " = "  x " :=
  ⟨by decide, adjustPrompt_identity_nonspace "  x " (by decide)⟩

/-- Claim C4: cancellation and completion are mutually exclusive — exactly
one select branch runs, whichever signal fires first is authoritative; after
cancellation the result is nil and a late Secret Response sent into the
capacity-1 result channel is buffered without blocking the sender. -/
theorem cancel_complete_exclusive (name prompt : String) (o : PromptOutcome)
    (pw : Bytes) :
    ((showPasswordHandler name prompt o).cancelBranch
      = !(showPasswordHandler name prompt o).completeBranch)
    ∧ ((showPasswordHandler name prompt o).cancelBranch = true ↔
        o = PromptOutcome.cancelled)
    ∧ (o = PromptOutcome.cancelled →
        (showPasswordHandler name prompt o).result = none
        ∧ (showPasswordHandler name prompt o).passwordChan.capacity = 1
        ∧ (showPasswordHandler name prompt o).passwordChan.send pw
          = SendOutcome.delivered { capacity := 1, buffer := [pw] }) := by
  cases o <;> simp [showPasswordHandler, mkPasswordChan, Chan.send]

/-- Witness for C4: at a concrete cancelled invocation, the result is nil
and a late delivery into the capacity-1 channel succeeds without blocking. -/
theorem cancel_complete_exclusive_witness :
    (showPasswordHandler "git" "pw: " PromptOutcome.cancelled).result = none
    ∧ (showPasswordHandler "git" "pw: " PromptOutcome.cancelled).passwordChan.capacity = 1
    ∧ (showPasswordHandler "git" "pw: " PromptOutcome.cancelled).passwordChan.send [1, 2]
      = SendOutcome.delivered { capacity := 1, buffer := [[1, 2]] } :=
  (cancel_complete_exclusive "git" "pw: " PromptOutcome.cancelled [1, 2]).2.2 rfl

/-- Claim C5: on cancellation the handler posts a second TogglePasswordMsg
with zero-value Prompt and nil Password channel, and returns nil. -/
theorem cancel_hides_and_returns_nil (name prompt : String) :
    (showPasswordHandler name prompt PromptOutcome.cancelled).result = none
    ∧ (showPasswordHandler name prompt PromptOutcome.cancelled).msgs
      = [{ Prompt := adjustPrompt prompt, Password := some mkPasswordChan },
         { Prompt := "", Password := none }] := by
  simp [showPasswordHandler]

/-- Claim C6: on completion the handler returns exactly the received bytes
and the only message sent is the initial show-prompt message. -/
theorem complete_returns_bytes_no_hide (name prompt : String) (pw : Bytes) :
    (showPasswordHandler name prompt (PromptOutcome.completed pw)).result = some pw
    ∧ (showPasswordHandler name prompt (PromptOutcome.completed pw)).msgs
      = [{ Prompt := adjustPrompt prompt, Password := some mkPasswordChan }] := by
  simp [showPasswordHandler]

/-- Claim C8: a submitted secret travels through the relay unmodified — the
handler returns the byte slice identically and the stub writes exactly
those bytes to standard output. -/
theorem secret_roundtrip_identity (name prompt : String) (pw : Bytes) :
    (showPasswordHandler name prompt (PromptOutcome.completed pw)).result = some pw
    ∧ stubStdout (showPasswordHandler name prompt (PromptOutcome.completed pw)).result
      = pw := by
  simp [showPasswordHandler, stubStdout]

/-- `runProgram` never touches the server-creation or askpass flags. -/
theorem runProgram_flags (e : Env) (t : RunTrace) :
    (runProgram e t).serverCreated = t.serverCreated
    ∧ (runProgram e t).startListeningCalled = t.startListeningCalled
    ∧ (runProgram e t).serveStarted = t.serveStarted
    ∧ (runProgram e t).promptHandlerInstalled = t.promptHandlerInstalled := by
  by_cases h : e.programRunOk <;> simp [runProgram, h]

/-- With the hijack disabled, the askpass block leaves the askpass flags
unchanged. -/
theorem runAskpassBlock_flags (e : Env) (t : RunTrace)
    (h : e.hijackAskpass = false) :
    (runAskpassBlock e t).serverCreated = t.serverCreated
    ∧ (runAskpassBlock e t).startListeningCalled = t.startListeningCalled
    ∧ (runAskpassBlock e t).serveStarted = t.serveStarted
    ∧ (runAskpassBlock e t).promptHandlerInstalled = t.promptHandlerInstalled := by
  simp only [runAskpassBlock, h, Bool.false_eq_true, if_false]
  exact runProgram_flags e t

/-- With the hijack disabled, theme loading leaves the askpass flags
unchanged. -/
theorem runThemes_flags (e : Env) (t : RunTrace) (h : e.hijackAskpass = false) :
    (runThemes e t).serverCreated = t.serverCreated
    ∧ (runThemes e t).startListeningCalled = t.startListeningCalled
    ∧ (runThemes e t).serveStarted = t.serveStarted
    ∧ (runThemes e t).promptHandlerInstalled = t.promptHandlerInstalled := by
  unfold runThemes
  split
  · split
    · simp
    · simpa using
        runAskpassBlock_flags e { t with themeLoaded := true, uiProgramCreated := true } h
  · simp

/-- With the hijack disabled, the Lua stage leaves the askpass flags
unchanged. -/
theorem runLua_flags (e : Env) (t : RunTrace) (h : e.hijackAskpass = false) :
    (runLua e t).serverCreated = t.serverCreated
    ∧ (runLua e t).startListeningCalled = t.startListeningCalled
    ∧ (runLua e t).serveStarted = t.serveStarted
    ∧ (runLua e t).promptHandlerInstalled = t.promptHandlerInstalled := by
  unfold runLua
  split
  · simp
  · split
    · simp
    · exact runThemes_flags e t h

/-- With the hijack disabled, the scripting stage leaves the askpass flags
unchanged. -/
theorem runVM_flags (e : Env) (t : RunTrace) (h : e.hijackAskpass = false) :
    (runVM e t).serverCreated = t.serverCreated
    ∧ (runVM e t).startListeningCalled = t.startListeningCalled
    ∧ (runVM e t).serveStarted = t.serveStarted
    ∧ (runVM e t).promptHandlerInstalled = t.promptHandlerInstalled := by
  unfold runVM
  split
  · simpa using runLua_flags e { t with vmInitialized := true } h
  · simp

/-- With the hijack disabled, the configuration stage leaves the askpass
flags unchanged. -/
theorem runConfig_flags (e : Env) (t : RunTrace) (h : e.hijackAskpass = false) :
    (runConfig e t).serverCreated = t.serverCreated
    ∧ (runConfig e t).startListeningCalled = t.startListeningCalled
    ∧ (runConfig e t).serveStarted = t.serveStarted
    ∧ (runConfig e t).promptHandlerInstalled = t.promptHandlerInstalled := by
  unfold runConfig
  split
  · split
    · simpa using runVM_flags e { t with configLoaded := true } h
    · simp
  · exact runVM_flags e t h
  · simp

/-- Claim C9: the askpass relay is gated on configuration — with
`Ssh.HijackAskpass` false, the server is created but `StartListening` is
never called, `Serve` never starts and the `showPassword` handler is never
installed for the whole session. -/
theorem askpass_gated_on_config (e : Env) (h : e.hijackAskpass = false) :
    (run e).serverCreated = true
    ∧ (run e).startListeningCalled = false
    ∧ (run e).serveStarted = false
    ∧ (run e).promptHandlerInstalled = false := by
  by_cases h1 : e.stubMode
  · simp [run, h1, RunTrace.init]
  by_cases h2 : e.helpFlag
  · simp [run, h1, h2, RunTrace.init]
  by_cases h3 : e.versionFlag
  · simp [run, h1, h2, h3, RunTrace.init]
  by_cases h4 : e.editConfigFlag
  · simp [run, h1, h2, h3, h4, RunTrace.init]
  cases hl : locationOf e with
  | none => simp [run, h1, h2, h3, h4, hl, RunTrace.init]
  | some loc =>
      cases hr : e.jjRootResult with
      | error msg => simp [run, h1, h2, h3, h4, hl, hr, RunTrace.init]
      | ok root =>
          have hc := runConfig_flags e
            { RunTrace.init with serverCreated := true, flagsParsed := true } h
          simp [RunTrace.init] at hc
          simp [run, h1, h2, h3, h4, hl, hr, RunTrace.init, hc]

/-- Witness for C9 at the concrete base environment with the hijack
disabled. -/
theorem askpass_gated_on_config_witness :
    (run baseEnv).serverCreated = true
    ∧ (run baseEnv).startListeningCalled = false
    ∧ (run baseEnv).serveStarted = false
    ∧ (run baseEnv).promptHandlerInstalled = false :=
  askpass_gated_on_config baseEnv rfl

/-- Claim C7: when the process is detected as a stub, `run()` returns 0
immediately — flags are never parsed, configuration is never loaded, the
scripting VM is never initialized, no theme is loaded and the UI event loop
never starts; only the unstarted server was created before detection. -/
theorem stub_skips_startup (e : Env) (h : e.stubMode = true) :
    (run e).exitCode = 0
    ∧ (run e).serverCreated = true
    ∧ (run e).flagsParsed = false
    ∧ (run e).configLoaded = false
    ∧ (run e).vmInitialized = false
    ∧ (run e).themeLoaded = false
    ∧ (run e).uiProgramCreated = false
    ∧ (run e).uiRan = false := by
  simp [run, h, RunTrace.init]

/-- Witness for C7 at the concrete stub environment. -/
theorem stub_skips_startup_witness :
    (run stubEnv).exitCode = 0
    ∧ (run stubEnv).serverCreated = true
    ∧ (run stubEnv).flagsParsed = false
    ∧ (run stubEnv).configLoaded = false
    ∧ (run stubEnv).vmInitialized = false
    ∧ (run stubEnv).themeLoaded = false
    ∧ (run stubEnv).uiProgramCreated = false
    ∧ (run stubEnv).uiRan = false :=
  stub_skips_startup stubEnv rfl

/-- Claim C1: in stub mode, the overall stub process exits 0 exactly when a
secret was provided (the decline leg is modelled from the spec, since the
askpass package is not among the given sources), and the stub branch of
`run()` itself returns 0 unconditionally. -/
theorem stub_exit_nonzero_iff_declined (e : Env) (o : StubOutcome)
    (h : e.stubMode = true) :
    ((stubProcess e o).1 = 0 ↔ ∃ s, o = StubOutcome.secretProvided s)
    ∧ (run e).exitCode = 0 := by
  have hrun : (run e).exitCode = 0 := by simp [run, h, RunTrace.init]
  refine ⟨?_, hrun⟩
  cases o with
  | declined => simp [stubProcess]
  | secretProvided s => simp [stubProcess, hrun]

/-- Witness for C1 at the concrete stub environment and a declined prompt. -/
theorem stub_exit_nonzero_iff_declined_witness :
    (((stubProcess stubEnv StubOutcome.declined).1 = 0 ↔
        ∃ s, StubOutcome.declined = StubOutcome.secretProvided s)
      ∧ (run stubEnv).exitCode = 0) :=
  stub_exit_nonzero_iff_declined stubEnv StubOutcome.declined rfl

/-- Claim C2 counterexample: at a concrete environment where the hijack is
enabled and the bind fails, `run()` calls `StartListening`, returns exit
code 1 and the UI event loop never runs — refuting that the rest of the
application keeps running after a bind failure. -/
theorem bind_error_counterexample :
    (run bindFailEnv).startListeningCalled = true
    ∧ (run bindFailEnv).uiRan = false
    ∧ (run bindFailEnv).exitCode = 1 := by decide

/-- Claim C2 as amended: for every environment that reaches the askpass
block with the hijack enabled, a `StartListening` failure makes `run()`
print the error and return exit status 1 before the UI program runs — the
UI event loop never starts and `Serve` is never launched. -/
theorem bind_error_exits_one (e : Env)
    (hstub : e.stubMode = false)
    (hhelp : e.helpFlag = false)
    (hver : e.versionFlag = false)
    (hedit : e.editConfigFlag = false)
    (hloc : (locationOf e).isSome = true)
    (hroot : ∃ r, e.jjRootResult = Except.ok r)
    (hcfg : e.loadConfigFile ≠ LoadFileResult.errOther)
    (hcfgload : e.configLoadOk = true)
    (hvm : e.initVMOk = true)
    (hlua : ∃ src, e.loadLuaConfig = Except.ok src)
    (hsetup : e.runSetupOk = true)
    (htheme : e.embeddedThemeOk = true)
    (huser : e.userThemeOk = true)
    (hhijack : e.hijackAskpass = true)
    (hbind : e.startListeningOk = false) :
    (run e).exitCode = 1
    ∧ (run e).uiRan = false
    ∧ (run e).startListeningCalled = true
    ∧ (run e).serveStarted = false := by
  rcases hroot with ⟨r, hroot⟩
  rcases hlua with ⟨src, hlua⟩
  cases hl : locationOf e with
  | none => rw [hl] at hloc; simp at hloc
  | some loc =>
      cases hc : e.loadConfigFile with
      | errOther => exact absurd hc hcfg
      | errNotExist =>
          simp [run, hstub, hhelp, hver, hedit, hl, hroot, runConfig, hc, runVM, hvm,
            runLua, hlua, hsetup, runThemes, htheme, huser, runAskpassBlock, hhijack,
            hbind, RunTrace.init]
      | ok content =>
          simp [run, hstub, hhelp, hver, hedit, hl, hroot, runConfig, hc, hcfgload,
            runVM, hvm, runLua, hlua, hsetup, runThemes, htheme, huser,
            runAskpassBlock, hhijack, hbind, RunTrace.init]

/-- Witness for the amended C2 at the concrete bind-failure environment. -/
theorem bind_error_exits_one_witness :
    (run bindFailEnv).exitCode = 1
    ∧ (run bindFailEnv).uiRan = false
    ∧ (run bindFailEnv).startListeningCalled = true
    ∧ (run bindFailEnv).serveStarted = false :=
  bind_error_exits_one bindFailEnv rfl rfl rfl rfl rfl ⟨"/home/user/repo", rfl⟩
    (by decide) rfl rfl ⟨"", rfl⟩ rfl rfl rfl rfl rfl

end JJUI
